import Mathlib

/-!
Verification of `src/subnet/rpc/database/corruptabledb/mod.rs`: a database
wrapper which blocks further calls to the database at the first sign of
corruption.  The decorator holds a `corrupted` flag and a `corrupted_error`
message slot; every operation performs a gate check and, while healthy,
forwards to the inner store, classifying inner errors through the external
`errors` collaborator module.

The inner store (`BoxedDatabase`) is opaque: each operation here takes the
inner store's response for that call as an explicit oracle argument, so that
theorems quantify over every possible inner-store behaviour.  Byte strings
(`&[u8]` / `Vec<u8>`) are modelled as `List Nat`, iterator handles as an
opaque `Nat`.
-/

namespace Corruptabledb

/-- An inner-store error, modelling `std::io::Error` as observed by this
module: an opaque kind code plus the display message that `err.to_string()`
yields. -/
structure Err where
  kind : Nat
  msg : String
deriving DecidableEq

/-- `err.to_string()`: the display message of an error. -/
def Err.to_string (e : Err) : String := e.msg

namespace errors

/-- Modelled from the spec: `errors::from_string` (module `super::errors`,
which is outside `src/`) builds the failure returned to callers from the
frozen message; the resulting error carries exactly that message. -/
def from_string (s : String) : Err := { kind := 0, msg := s }

end errors

/-- Modelled from the spec: the classification collaborators of module
`super::errors` (outside `src/`).  `is_corruptible` is the classification
predicate `classify(error) -> (isCorruption, normalizedError)`;
`is_not_found` is the not-found predicate. -/
structure Collab where
  is_corruptible : Err → Bool × Err
  is_not_found : Err → Bool

/-- The `corruptabledb::Database` decorator state: the `corrupted` flag
(`Arc<AtomicBool>`) and the `corrupted_error` message slot
(`Arc<RwLock<String>>`).  The inner `BoxedDatabase` handle is supplied to
each operation as an oracle argument instead of being stored here. -/
structure Database where
  corrupted : Bool
  corrupted_error : String
deriving DecidableEq

/-- `Database::new`: wraps an inner store with `corrupted` initialised to
`false` and `corrupted_error` to the empty string (mod.rs lines 24-30). -/
def Database.new : Database := { corrupted := false, corrupted_error := "" }

/-- `has` (mod.rs lines 36-61): gate check; otherwise invoke the inner
`db.get(key)` (its response is the oracle `inner`); `Ok(_)` maps to `true`;
a corruption-classified error records the normalized message and latches;
a not-found error maps to `Ok(false)`; any other error is returned. -/
def has (c : Collab) (s : Database) (inner : Except Err (List Nat)) :
    Except Err Bool × Database :=
  if s.corrupted then
    (Except.error (errors.from_string s.corrupted_error), s)
  else
    match inner with
    | Except.ok _ => (Except.ok true, s)
    | Except.error err =>
      match c.is_corruptible err with
      | (is_corrupted, err) =>
        if is_corrupted then
          let s' : Database := { corrupted := true, corrupted_error := err.to_string }
          (Except.error (errors.from_string s'.corrupted_error), s')
        else if c.is_not_found err then
          (Except.ok false, s)
        else
          (Except.error err, s)

/-- `get` (mod.rs lines 64-86): gate check; otherwise forward `db.get(key)`;
on error, latch when corruption-classified, else return the error. -/
def get (c : Collab) (s : Database) (inner : Except Err (List Nat)) :
    Except Err (List Nat) × Database :=
  if s.corrupted then
    (Except.error (errors.from_string s.corrupted_error), s)
  else
    match inner with
    | Except.ok resp => (Except.ok resp, s)
    | Except.error err =>
      match c.is_corruptible err with
      | (is_corrupted, err) =>
        if is_corrupted then
          let s' : Database := { corrupted := true, corrupted_error := err.to_string }
          (Except.error (errors.from_string s'.corrupted_error), s')
        else
          (Except.error err, s)

/-- `put` (mod.rs lines 89-111): gate check; otherwise forward
`db.put(key, value)`; on error, latch when corruption-classified, else
return the error. -/
def put (c : Collab) (s : Database) (inner : Except Err Unit) :
    Except Err Unit × Database :=
  if s.corrupted then
    (Except.error (errors.from_string s.corrupted_error), s)
  else
    match inner with
    | Except.ok _ => (Except.ok (), s)
    | Except.error err =>
      match c.is_corruptible err with
      | (is_corrupted, err) =>
        if is_corrupted then
          let s' : Database := { corrupted := true, corrupted_error := err.to_string }
          (Except.error (errors.from_string s'.corrupted_error), s')
        else
          (Except.error err, s)

/-- `delete` (mod.rs lines 114-136): gate check; otherwise forward
`db.delete(key)`; on error, latch when corruption-classified, else return
the error. -/
def delete (c : Collab) (s : Database) (inner : Except Err Unit) :
    Except Err Unit × Database :=
  if s.corrupted then
    (Except.error (errors.from_string s.corrupted_error), s)
  else
    match inner with
    | Except.ok _ => (Except.ok (), s)
    | Except.error err =>
      match c.is_corruptible err with
      | (is_corrupted, err) =>
        if is_corrupted then
          let s' : Database := { corrupted := true, corrupted_error := err.to_string }
          (Except.error (errors.from_string s'.corrupted_error), s')
        else
          (Except.error err, s)

/-- `close` (mod.rs lines 142-164): gate check; otherwise forward
`db.close()`; on error, latch when corruption-classified, else return the
error. -/
def close (c : Collab) (s : Database) (inner : Except Err Unit) :
    Except Err Unit × Database :=
  if s.corrupted then
    (Except.error (errors.from_string s.corrupted_error), s)
  else
    match inner with
    | Except.ok _ => (Except.ok (), s)
    | Except.error err =>
      match c.is_corruptible err with
      | (is_corrupted, err) =>
        if is_corrupted then
          let s' : Database := { corrupted := true, corrupted_error := err.to_string }
          (Except.error (errors.from_string s'.corrupted_error), s')
        else
          (Except.error err, s)

/-- `health_check` (mod.rs lines 170-192): gate check; otherwise forward
`db.health_check()`; on error, latch when corruption-classified, else
return the error. -/
def health_check (c : Collab) (s : Database) (inner : Except Err (List Nat)) :
    Except Err (List Nat) × Database :=
  if s.corrupted then
    (Except.error (errors.from_string s.corrupted_error), s)
  else
    match inner with
    | Except.ok resp => (Except.ok resp, s)
    | Except.error err =>
      match c.is_corruptible err with
      | (is_corrupted, err) =>
        if is_corrupted then
          let s' : Database := { corrupted := true, corrupted_error := err.to_string }
          (Except.error (errors.from_string s'.corrupted_error), s')
        else
          (Except.error err, s)

/-- `new_iterator_with_start_and_prefix` (mod.rs lines 213-227): gate check
only; then forward to the inner store's factory `db` with the given bounds
and return whatever it returns — no error classification at all.  Note the
definition does not take a `Collab`. -/
def new_iterator_with_start_and_prefix (s : Database)
    (db : List Nat → List Nat → Except Err Nat)
    (start pfx : List Nat) : Except Err Nat × Database :=
  if s.corrupted then
    (Except.error (errors.from_string s.corrupted_error), s)
  else
    (db start pfx, s)

/-- `new_iterator` (mod.rs lines 198-200): forwards to
`new_iterator_with_start_and_prefix(&[], &[])`. -/
def new_iterator (s : Database) (db : List Nat → List Nat → Except Err Nat) :
    Except Err Nat × Database :=
  new_iterator_with_start_and_prefix s db [] []

/-- `new_iterator_with_start` (mod.rs lines 203-205): forwards to
`new_iterator_with_start_and_prefix(start, &[])`. -/
def new_iterator_with_start (s : Database)
    (db : List Nat → List Nat → Except Err Nat) (start : List Nat) :
    Except Err Nat × Database :=
  new_iterator_with_start_and_prefix s db start []

/-- `new_iterator_with_prefix` (mod.rs lines 208-210): forwards to
`new_iterator_with_start_and_prefix(&[], prefix)`. -/
def new_iterator_with_prefix (s : Database)
    (db : List Nat → List Nat → Except Err Nat) (pfx : List Nat) :
    Except Err Nat × Database :=
  new_iterator_with_start_and_prefix s db [] pfx

/-! ## Operation traces

A single step of an arbitrary operation on the decorator.  Each call carries
the inner store's would-be response for that call (the oracle); the decorator
decides whether to consult it. -/

/-- A uniform result type covering all operations. -/
inductive OpResult where
  | okBool (b : Bool)
  | okBytes (v : List Nat)
  | okUnit
  | okIter (h : Nat)
  | fail (e : Err)
deriving DecidableEq

/-- One operation call together with the inner store's response for it. -/
inductive OpCall where
  | hasOp (inner : Except Err (List Nat))
  | getOp (inner : Except Err (List Nat))
  | putOp (inner : Except Err Unit)
  | deleteOp (inner : Except Err Unit)
  | closeOp (inner : Except Err Unit)
  | healthOp (inner : Except Err (List Nat))
  | iterOp (db : List Nat → List Nat → Except Err Nat)
  | iterStartOp (start : List Nat) (db : List Nat → List Nat → Except Err Nat)
  | iterPfxOp (pfx : List Nat) (db : List Nat → List Nat → Except Err Nat)
  | iterStartPfxOp (start pfx : List Nat) (db : List Nat → List Nat → Except Err Nat)

/-- Inject a boolean-valued operation result into `OpResult`. -/
def resBool : Except Err Bool → OpResult
  | Except.ok b => OpResult.okBool b
  | Except.error e => OpResult.fail e

/-- Inject a byte-valued operation result into `OpResult`. -/
def resBytes : Except Err (List Nat) → OpResult
  | Except.ok v => OpResult.okBytes v
  | Except.error e => OpResult.fail e

/-- Inject a unit-valued operation result into `OpResult`. -/
def resUnit : Except Err Unit → OpResult
  | Except.ok _ => OpResult.okUnit
  | Except.error e => OpResult.fail e

/-- Inject an iterator-factory result into `OpResult`. -/
def resIter : Except Err Nat → OpResult
  | Except.ok h => OpResult.okIter h
  | Except.error e => OpResult.fail e

/-- Dispatch one operation call on the decorator state. -/
def step (c : Collab) (s : Database) : OpCall → OpResult × Database
  | OpCall.hasOp inner => Prod.map resBool id (has c s inner)
  | OpCall.getOp inner => Prod.map resBytes id (get c s inner)
  | OpCall.putOp inner => Prod.map resUnit id (put c s inner)
  | OpCall.deleteOp inner => Prod.map resUnit id (delete c s inner)
  | OpCall.closeOp inner => Prod.map resUnit id (close c s inner)
  | OpCall.healthOp inner => Prod.map resBytes id (health_check c s inner)
  | OpCall.iterOp db => Prod.map resIter id ( new_iterator s db)
  | OpCall.iterStartOp start db => Prod.map resIter id ( new_iterator_with_start s db start)
  | OpCall.iterPfxOp pfx db => Prod.map resIter id ( new_iterator_with_prefix s db pfx)
  | OpCall.iterStartPfxOp start pfx db =>
    Prod.map resIter id ( new_iterator_with_start_and_prefix s db start pfx)

/-- Run a sequence of operation calls, collecting each call's result and the
final decorator state. -/
def runTrace (c : Collab) (s : Database) : List OpCall → List OpResult × Database
  | [] => ([], s)
  | op :: ops =>
    let p := step c s op
    let q := runTrace c p.2 ops
    (p.1 :: q.1, q.2)

/-! ## The latch critical section under concurrent interleaving

The transition path of every operation (e.g. mod.rs lines 49-52 in `has`) is,
in order: write the classified message into the `RwLock<String>` slot, store
`true` into the atomic `corrupted` flag, then re-read the slot to build the
returned error.  Two callers that both passed the gate check and both
received corruption-classified inner errors (messages `mA`, `mB`) race
through these three micro-steps; a scheduler interleaves them, each lock
acquisition being atomic.  This models sequentially consistent interleavings
of the critical sections. -/

/-- Program counter of a racing latch writer: before the message write,
after the message write (mod.rs line 49), after the flag store (line 50),
and after the re-read that builds the returned error (lines 51-53). -/
inductive WriterPC where
  | atStart
  | wroteMsg
  | flaggedTrue
  | finished
deriving DecidableEq

/-- Thread identifier for the two racing writers. -/
inductive Tid where
  | tA
  | tB
deriving DecidableEq

/-- Shared decorator state plus each writer's progress and the message its
returned error ends up carrying. -/
structure RaceState where
  corrupted : Bool
  corrupted_error : String
  pcA : WriterPC
  pcB : WriterPC
  retA : Option String
  retB : Option String
deriving DecidableEq

/-- Initial race state: healthy decorator, both writers about to perform
their critical sections. -/
def raceInit : RaceState :=
  { corrupted := false, corrupted_error := "", pcA := WriterPC.atStart,
    pcB := WriterPC.atStart, retA := none, retB := none }

/-- One micro-step of the chosen writer, mirroring mod.rs lines 49-53:
`*self.corrupted_error.write().await = err.to_string()` (unconditional
overwrite), then `self.corrupted.store(true, Ordering::Relaxed)`, then
`errors::from_string(self.corrupted_error.read().await.to_string())`. -/
def microStep (mA mB : String) (st : RaceState) : Tid → RaceState
  | Tid.tA =>
    match st.pcA with
    | WriterPC.atStart => { st with corrupted_error := mA, pcA := WriterPC.wroteMsg }
    | WriterPC.wroteMsg => { st with corrupted := true, pcA := WriterPC.flaggedTrue }
    | WriterPC.flaggedTrue => { st with retA := some st.corrupted_error, pcA := WriterPC.finished }
    | WriterPC.finished => st
  | Tid.tB =>
    match st.pcB with
    | WriterPC.atStart => { st with corrupted_error := mB, pcB := WriterPC.wroteMsg }
    | WriterPC.wroteMsg => { st with corrupted := true, pcB := WriterPC.flaggedTrue }
    | WriterPC.flaggedTrue => { st with retB := some st.corrupted_error, pcB := WriterPC.finished }
    | WriterPC.finished => st

/-- Run the two racing writers under a schedule. -/
def raceRun (mA mB : String) (st : RaceState) : List Tid → RaceState
  | [] => st
  | t :: ts => raceRun mA mB (microStep mA mB st t) ts

/-- A concrete sample collaborator used to evaluate the theorems on closed
inputs: errors of kind 9 are classified as corruption (left unnormalized),
errors of kind 1 as not-found. -/
def collabEx : Collab :=
  { is_corruptible := fun e => (decide (e.kind = 9), e),
    is_not_found := fun e => decide (e.kind = 1) }

/-- Invariant of the two-writer race: once either writer has performed its
message write, the slot holds one of the two complete messages; the flag is
only ever set after some message write; and every returned error carries one
of the two complete messages. -/
def RaceInv (mA mB : String) (st : RaceState) : Prop :=
  ((st.pcA ≠ WriterPC.atStart ∨ st.pcB ≠ WriterPC.atStart) →
      (st.corrupted_error = mA ∨ st.corrupted_error = mB))
    ∧ (st.corrupted = true → (st.pcA ≠ WriterPC.atStart ∨ st.pcB ≠ WriterPC.atStart))
    ∧ (∀ r, st.retA = some r → r = mA ∨ r = mB)
    ∧ (∀ r, st.retB = some r → r = mA ∨ r = mB)

/-! ## Theorems -/

/-- C2: Corruption transition — for each of `has`, `get`, `put`, `delete`,
`close`, `health_check`: from a Healthy state, when the inner call fails
with `e` and the classification collaborator classifies it as corruption
(normalizing it to `e'`), the operation records the normalized error's
message, flips the state to Corrupted, and returns a failure carrying that
recorded message. -/
theorem corruption_transition (c : Collab) (s : Database) (e e' : Err)
    (hH : s.corrupted = false) (hC : c.is_corruptible e = (true, e')) :
    has c s (Except.error e)
        = (Except.error (errors.from_string e'.to_string),
           { corrupted := true, corrupted_error := e'.to_string })
      ∧ get c s (Except.error e)
        = (Except.error (errors.from_string e'.to_string),
           { corrupted := true, corrupted_error := e'.to_string })
      ∧ put c s (Except.error e)
        = (Except.error (errors.from_string e'.to_string),
           { corrupted := true, corrupted_error := e'.to_string })
      ∧ delete c s (Except.error e)
        = (Except.error (errors.from_string e'.to_string),
           { corrupted := true, corrupted_error := e'.to_string })
      ∧ close c s (Except.error e)
        = (Except.error (errors.from_string e'.to_string),
           { corrupted := true, corrupted_error := e'.to_string })
      ∧ health_check c s (Except.error e)
        = (Except.error (errors.from_string e'.to_string),
           { corrupted := true, corrupted_error := e'.to_string }) := by
  refine ⟨?_, ?_, ?_, ?_, ?_, ?_⟩ <;>
    simp [has, get, put, delete, close, health_check, hH, hC]

/-- Witness for C2 at a concrete Corrupted-classified error. -/
theorem corruption_transition_witness :
    Database.new.corrupted = false
      ∧ collabEx.is_corruptible { kind := 9, msg := "disk read error" }
          = (true, { kind := 9, msg := "disk read error" })
      ∧ has collabEx Database.new (Except.error { kind := 9, msg := "disk read error" })
          = (Except.error (errors.from_string "disk read error"),
             { corrupted := true, corrupted_error := "disk read error" }) :=
  ⟨rfl, by decide,
    (corruption_transition collabEx Database.new { kind := 9, msg := "disk read error" }
      { kind := 9, msg := "disk read error" } rfl (by decide)).1⟩

/-- C3: Passthrough fidelity — for each of `has`, `get`, `put`, `delete`,
`close`, `health_check`: from a Healthy state, an inner error that the
classification collaborator does not classify as corruption (per the spec's
contract the non-corruption outcome carries the original error) — and, for
`has`, that is not not-found — is returned unchanged, with the state
unchanged. -/
theorem passthrough_fidelity (c : Collab) (s : Database) (e : Err)
    (hH : s.corrupted = false) (hC : c.is_corruptible e = (false, e)) :
    (c.is_not_found e = false → has c s (Except.error e) = (Except.error e, s))
      ∧ get c s (Except.error e) = (Except.error e, s)
      ∧ put c s (Except.error e) = (Except.error e, s)
      ∧ delete c s (Except.error e) = (Except.error e, s)
      ∧ close c s (Except.error e) = (Except.error e, s)
      ∧ health_check c s (Except.error e) = (Except.error e, s) := by
  refine ⟨fun hNF => ?_, ?_, ?_, ?_, ?_, ?_⟩ <;>
    simp [has, get, put, delete, close, health_check, hH, hC]
  simp [hNF]

/-- Witness for C3 at a concrete unclassified error. -/
theorem passthrough_fidelity_witness :
    Database.new.corrupted = false
      ∧ collabEx.is_corruptible { kind := 3, msg := "permission denied" }
          = (false, { kind := 3, msg := "permission denied" })
      ∧ collabEx.is_not_found { kind := 3, msg := "permission denied" } = false
      ∧ get collabEx Database.new (Except.error { kind := 3, msg := "permission denied" })
          = (Except.error { kind := 3, msg := "permission denied" }, Database.new) :=
  ⟨rfl, by decide, by decide,
    (passthrough_fidelity collabEx Database.new { kind := 3, msg := "permission denied" }
      rfl (by decide)).2.1⟩

/-- C5: Not-found asymmetry — from a Healthy state, on an inner error
classified as not-found and not as corruption, `has` returns success `false`
with no state change, while `get`, `put`, `delete`, `close` and
`health_check` propagate the not-found-flavored error as an error. -/
theorem not_found_asymmetry (c : Collab) (s : Database) (e : Err)
    (hH : s.corrupted = false) (hC : c.is_corruptible e = (false, e))
    (hNF : c.is_not_found e = true) :
    has c s (Except.error e) = (Except.ok false, s)
      ∧ get c s (Except.error e) = (Except.error e, s)
      ∧ put c s (Except.error e) = (Except.error e, s)
      ∧ delete c s (Except.error e) = (Except.error e, s)
      ∧ close c s (Except.error e) = (Except.error e, s)
      ∧ health_check c s (Except.error e) = (Except.error e, s) := by
  refine ⟨?_, ?_, ?_, ?_, ?_, ?_⟩ <;>
    simp [has, get, put, delete, close, health_check, hH, hC, hNF]

/-- Witness for C5 at a concrete not-found error. -/
theorem not_found_asymmetry_witness :
    Database.new.corrupted = false
      ∧ collabEx.is_corruptible { kind := 1, msg := "not found" }
          = (false, { kind := 1, msg := "not found" })
      ∧ collabEx.is_not_found { kind := 1, msg := "not found" } = true
      ∧ has collabEx Database.new (Except.error { kind := 1, msg := "not found" })
          = (Except.ok false, Database.new) :=
  ⟨rfl, by decide, by decide,
    (not_found_asymmetry collabEx Database.new { kind := 1, msg := "not found" }
      rfl (by decide) (by decide)).1⟩

/-- C6: `has` success mapping — from a Healthy state, `has` succeeds with
`true` exactly when the inner store's `get` (through which `has` is
implemented) succeeds. -/
theorem has_success_mapping (c : Collab) (s : Database)
    (inner : Except Err (List Nat)) (hH : s.corrupted = false) :
    (has c s inner).1 = Except.ok true ↔ ∃ v, inner = Except.ok v := by
  cases inner with
  | ok v => simp [has, hH]
  | error e =>
    rcases h2 : c.is_corruptible e with ⟨b, e2⟩
    cases b <;> by_cases hnf : c.is_not_found e2 <;> simp [has, hH, h2, hnf]

/-- Witness for C6 at a concrete inner success and a concrete inner
not-found failure. -/
theorem has_success_mapping_witness :
    ((has collabEx Database.new (Except.ok [7])).1 = Except.ok true
        ↔ ∃ v, (Except.ok [7] : Except Err (List Nat)) = Except.ok v)
      ∧ ((has collabEx Database.new (Except.error { kind := 1, msg := "not found" })).1
            = Except.ok true
          ↔ ∃ v, (Except.error { kind := 1, msg := "not found" } : Except Err (List Nat))
              = Except.ok v) :=
  ⟨has_success_mapping collabEx Database.new (Except.ok [7]) rfl,
    has_success_mapping collabEx Database.new
      (Except.error { kind := 1, msg := "not found" }) rfl⟩

/-- C7: the iterator factory never latches —
`new_iterator_with_start_and_prefix` leaves the decorator state (flag and
message) unchanged for every inner-factory behaviour, including failures;
when Healthy it forwards the inner factory's result verbatim (the
definition takes no classification collaborator at all), and when Corrupted
it returns only the gate-check failure. -/
theorem iterator_factory_never_latches (s : Database)
    (db : List Nat → List Nat → Except Err Nat) (start pfx : List Nat) :
    ( new_iterator_with_start_and_prefix s db start pfx).2 = s
      ∧ (s.corrupted = false →
          ( new_iterator_with_start_and_prefix s db start pfx).1 = db start pfx)
      ∧ (s.corrupted = true →
          ( new_iterator_with_start_and_prefix s db start pfx).1
            = Except.error (errors.from_string s.corrupted_error)) := by
  by_cases h : s.corrupted = true <;>
    simp_all [ new_iterator_with_start_and_prefix]

/-- Witness for C7: a Healthy decorator forwards a failing inner factory
verbatim and stays Healthy. -/
theorem iterator_factory_never_latches_witness :
    ( new_iterator_with_start_and_prefix Database.new
        (fun _ _ => Except.error { kind := 9, msg := "boom" }) [] []).2 = Database.new
      ∧ ( new_iterator_with_start_and_prefix Database.new
            (fun _ _ => Except.error { kind := 9, msg := "boom" }) [] []).1
          = Except.error { kind := 9, msg := "boom" } :=
  ⟨(iterator_factory_never_latches Database.new
      (fun _ _ => Except.error { kind := 9, msg := "boom" }) [] []).1,
    (iterator_factory_never_latches Database.new
      (fun _ _ => Except.error { kind := 9, msg := "boom" }) [] []).2.1 rfl⟩

/-- C8: iterator forwarder equivalence — for every decorator state,
`new_iterator` equals `new_iterator_with_start_and_prefix` with both bounds
empty, `new_iterator_with_start start` equals it with an empty prefix, and
`new_iterator_with_prefix pfx` equals it with an empty start. -/
theorem iterator_forwarders (s : Database)
    (db : List Nat → List Nat → Except Err Nat) :
    new_iterator s db = new_iterator_with_start_and_prefix s db [] []
      ∧ (∀ start, new_iterator_with_start s db start
          = new_iterator_with_start_and_prefix s db start [])
      ∧ (∀ pfx, new_iterator_with_prefix s db pfx
          = new_iterator_with_start_and_prefix s db [] pfx) :=
  ⟨rfl, fun _ => rfl, fun _ => rfl⟩

/-- C9: healthy initial state — `Database::new` constructs the decorator
with the corruption flag `false` and an empty message slot, and the first
invocation of every operation on it passes the gate check and reaches the
inner store: on every inner success each operation returns that inner
result. -/
theorem new_initial_state :
    Database.new.corrupted = false
      ∧ Database.new.corrupted_error = ""
      ∧ (∀ c v, has c Database.new (Except.ok v) = (Except.ok true, Database.new))
      ∧ (∀ c v, get c Database.new (Except.ok v) = (Except.ok v, Database.new))
      ∧ (∀ c, put c Database.new (Except.ok ()) = (Except.ok (), Database.new))
      ∧ (∀ c, delete c Database.new (Except.ok ()) = (Except.ok (), Database.new))
      ∧ (∀ c, close c Database.new (Except.ok ()) = (Except.ok (), Database.new))
      ∧ (∀ c v, health_check c Database.new (Except.ok v) = (Except.ok v, Database.new))
      ∧ (∀ db start pfx, new_iterator_with_start_and_prefix Database.new db start pfx
          = (db start pfx, Database.new))
      ∧ (∀ db, new_iterator Database.new db = (db [] [], Database.new))
      ∧ (∀ db start, new_iterator_with_start Database.new db start
          = (db start [], Database.new))
      ∧ (∀ db pfx, new_iterator_with_prefix Database.new db pfx
          = (db [] pfx, Database.new)) :=
  ⟨rfl, rfl, fun _ _ => rfl, fun _ _ => rfl, fun _ => rfl, fun _ => rfl, fun _ => rfl,
    fun _ _ => rfl, fun _ _ _ => rfl, fun _ => rfl, fun _ _ => rfl, fun _ _ => rfl⟩

/-- C10: frame on success — from a Healthy state, when the inner call
succeeds, every operation returns the inner result (`true` for `has`) and
leaves both the corruption flag and the message slot unchanged. -/
theorem frame_on_success (c : Collab) (s : Database) (hH : s.corrupted = false) :
    (∀ v, has c s (Except.ok v) = (Except.ok true, s))
      ∧ (∀ v, get c s (Except.ok v) = (Except.ok v, s))
      ∧ put c s (Except.ok ()) = (Except.ok (), s)
      ∧ delete c s (Except.ok ()) = (Except.ok (), s)
      ∧ close c s (Except.ok ()) = (Except.ok (), s)
      ∧ (∀ v, health_check c s (Except.ok v) = (Except.ok v, s))
      ∧ (∀ db start pfx h, db start pfx = Except.ok h →
          new_iterator_with_start_and_prefix s db start pfx = (Except.ok h, s)) := by
  refine ⟨fun v => ?_, fun v => ?_, ?_, ?_, ?_, fun v => ?_, fun db start pfx h hOk => ?_⟩ <;>
    simp [has, get, put, delete, close, health_check,
      new_iterator_with_start_and_prefix, hH]
  exact hOk

/-- Witness for C10 on a freshly constructed decorator with concrete inner
successes. -/
theorem frame_on_success_witness :
    Database.new.corrupted = false
      ∧ get collabEx Database.new (Except.ok [1, 2]) = (Except.ok [1, 2], Database.new)
      ∧ new_iterator_with_start_and_prefix Database.new (fun _ _ => Except.ok 5) [] []
          = (Except.ok 5, Database.new) :=
  ⟨rfl, (frame_on_success collabEx Database.new rfl).2.1 [1, 2],
    (frame_on_success collabEx Database.new rfl).2.2.2.2.2.2
      (fun _ _ => Except.ok 5) [] [] 5 rfl⟩

/-- In a Corrupted state, every operation call returns only the gate-check
failure carrying the stored message and leaves the state untouched —
whatever the inner store's would-be response (so the inner store is never
consulted). -/
lemma step_corrupted (c : Collab) (s : Database) (h : s.corrupted = true)
    (op : OpCall) :
    step c s op = (OpResult.fail (errors.from_string s.corrupted_error), s) := by
  cases op <;>
    simp [step, has, get, put, delete, close, health_check, new_iterator,
      new_iterator_with_start, new_iterator_with_prefix,
      new_iterator_with_start_and_prefix, h, resBool, resBytes, resUnit,
      resIter, Prod.map]

/-- In a Corrupted state, a whole trace of operation calls yields only
gate-check failures carrying the stored message, and the state never
changes. -/
lemma runTrace_corrupted (c : Collab) (s : Database) (h : s.corrupted = true) :
    ∀ ops : List OpCall,
      runTrace c s ops
        = (ops.map fun _ => OpResult.fail (errors.from_string s.corrupted_error), s)
  | [] => by simp [runTrace]
  | op :: ops => by
    simp [runTrace, step_corrupted c s h op, runTrace_corrupted c s h ops]

/-- From a Healthy state, one operation call either leaves the state
untouched, or latches: the new state is Corrupted and the call's own result
is a failure carrying exactly the newly recorded message. -/
lemma step_state_cases (c : Collab) (s : Database) (op : OpCall)
    (hH : s.corrupted = false) :
    (step c s op).2 = s
      ∨ ((step c s op).2.corrupted = true
          ∧ (step c s op).1
            = OpResult.fail (errors.from_string (step c s op).2.corrupted_error)) := by
  cases op with
  | hasOp inner =>
    cases inner with
    | ok v => left; simp [step, has, hH, Prod.map]
    | error e =>
      rcases h2 : c.is_corruptible e with ⟨b, e2⟩
      cases b with
      | false =>
        left
        by_cases hnf : c.is_not_found e2 <;> simp [step, has, hH, h2, hnf, Prod.map]
      | true =>
        right
        simp [step, has, hH, h2, Prod.map, resBool]
  | getOp inner =>
    cases inner with
    | ok v => left; simp [step, get, hH, Prod.map]
    | error e =>
      rcases h2 : c.is_corruptible e with ⟨b, e2⟩
      cases b with
      | false => left; simp [step, get, hH, h2, Prod.map]
      | true => right; simp [step, get, hH, h2, Prod.map, resBytes]
  | putOp inner =>
    cases inner with
    | ok v => left; simp [step, put, hH, Prod.map]
    | error e =>
      rcases h2 : c.is_corruptible e with ⟨b, e2⟩
      cases b with
      | false => left; simp [step, put, hH, h2, Prod.map]
      | true => right; simp [step, put, hH, h2, Prod.map, resUnit]
  | deleteOp inner =>
    cases inner with
    | ok v => left; simp [step, delete, hH, Prod.map]
    | error e =>
      rcases h2 : c.is_corruptible e with ⟨b, e2⟩
      cases b with
      | false => left; simp [step, delete, hH, h2, Prod.map]
      | true => right; simp [step, delete, hH, h2, Prod.map, resUnit]
  | closeOp inner =>
    cases inner with
    | ok v => left; simp [step, close, hH, Prod.map]
    | error e =>
      rcases h2 : c.is_corruptible e with ⟨b, e2⟩
      cases b with
      | false => left; simp [step, close, hH, h2, Prod.map]
      | true => right; simp [step, close, hH, h2, Prod.map, resUnit]
  | healthOp inner =>
    cases inner with
    | ok v => left; simp [step, health_check, hH, Prod.map]
    | error e =>
      rcases h2 : c.is_corruptible e with ⟨b, e2⟩
      cases b with
      | false => left; simp [step, health_check, hH, h2, Prod.map]
      | true => right; simp [step, health_check, hH, h2, Prod.map, resBytes]
  | iterOp db =>
    left
    simp [step, new_iterator, new_iterator_with_start_and_prefix, hH, Prod.map]
  | iterStartOp start db =>
    left
    simp [step, new_iterator_with_start, new_iterator_with_start_and_prefix, hH,
      Prod.map]
  | iterPfxOp pfx db =>
    left
    simp [step, new_iterator_with_prefix, new_iterator_with_start_and_prefix, hH,
      Prod.map]
  | iterStartPfxOp start pfx db =>
    left
    simp [step, new_iterator_with_start_and_prefix, hH, Prod.map]

/-- C1: latch permanence — on one decorator instance, once an operation has
recorded a corruption-classified inner error (the step from a Healthy state
whose resulting state is Corrupted), that operation itself fails with the
recorded message, and every subsequent operation of any kind — `has`,
`get`, `put`, `delete`, `close`, `health_check` and all four
iterator-factory entry points, with arbitrary inner-store responses, so the
inner store is never consulted again — fails with a failure carrying
exactly that first recorded message, and the Corrupted state is never
reset. -/
theorem latch_permanence (c : Collab) (s₀ : Database) (op : OpCall)
    (ops : List OpCall) (hH : s₀.corrupted = false)
    (hL : (step c s₀ op).2.corrupted = true) :
    (step c s₀ op).1
        = OpResult.fail (errors.from_string (step c s₀ op).2.corrupted_error)
      ∧ runTrace c (step c s₀ op).2 ops
        = (ops.map fun _ =>
            OpResult.fail (errors.from_string (step c s₀ op).2.corrupted_error),
           (step c s₀ op).2) := by
  rcases step_state_cases c s₀ op hH with h | ⟨h1, h2⟩
  · rw [h, hH] at hL
    exact absurd hL (by simp)
  · exact ⟨h2, runTrace_corrupted c _ h1 ops⟩

/-- Witness for C1: a corruption-classified `get` failure latches a fresh
decorator, and a subsequent `put` and `close` (with healthy inner
responses) both fail with the recorded message. -/
theorem latch_permanence_witness :
    Database.new.corrupted = false
      ∧ (step collabEx Database.new
          (OpCall.getOp (Except.error { kind := 9, msg := "boom" }))).2.corrupted = true
      ∧ ((step collabEx Database.new
            (OpCall.getOp (Except.error { kind := 9, msg := "boom" }))).1
          = OpResult.fail (errors.from_string
              (step collabEx Database.new
                (OpCall.getOp (Except.error { kind := 9, msg := "boom" }))).2.corrupted_error)
        ∧ runTrace collabEx
            (step collabEx Database.new
              (OpCall.getOp (Except.error { kind := 9, msg := "boom" }))).2
            [OpCall.putOp (Except.ok ()), OpCall.closeOp (Except.ok ())]
          = ([OpCall.putOp (Except.ok ()), OpCall.closeOp (Except.ok ())].map fun _ =>
              OpResult.fail (errors.from_string
                (step collabEx Database.new
                  (OpCall.getOp (Except.error { kind := 9, msg := "boom" }))).2.corrupted_error),
             (step collabEx Database.new
               (OpCall.getOp (Except.error { kind := 9, msg := "boom" }))).2)) :=
  ⟨rfl, rfl,
    latch_permanence collabEx Database.new
      (OpCall.getOp (Except.error { kind := 9, msg := "boom" }))
      [OpCall.putOp (Except.ok ()), OpCall.closeOp (Except.ok ())] rfl rfl⟩

/-- The race invariant holds of the initial race state. -/
lemma raceInv_init (mA mB : String) : RaceInv mA mB raceInit := by
  refine ⟨?_, ?_, ?_, ?_⟩ <;> simp [raceInit]

/-- One micro-step of either writer preserves the race invariant. -/
lemma raceInv_microStep (mA mB : String) (st : RaceState) (t : Tid)
    (h : RaceInv mA mB st) : RaceInv mA mB (microStep mA mB st t) := by
  obtain ⟨h1, h2, h3, h4⟩ := h
  cases t with
  | tA =>
    rcases hp : st.pcA with _ | _ | _ | _
    · exact ⟨fun _ => Or.inl (by simp [microStep, hp]), fun _ => by simp [microStep, hp],
        by simpa [microStep, hp] using h3, by simpa [microStep, hp] using h4⟩
    · refine ⟨fun _ => ?_, fun _ => ?_, ?_, ?_⟩
      · simpa [microStep, hp] using h1 (Or.inl (by simp [hp]))
      · simp [microStep, hp]
      · simpa [microStep, hp] using h3
      · simpa [microStep, hp] using h4
    · refine ⟨fun _ => ?_, fun _ => ?_, ?_, ?_⟩
      · simpa [microStep, hp] using h1 (Or.inl (by simp [hp]))
      · simp [microStep, hp]
      · intro r hr
        simp [microStep, hp] at hr
        exact hr ▸ h1 (Or.inl (by simp [hp]))
      · simpa [microStep, hp] using h4
    · simpa [microStep, hp] using ⟨h1, h2, h3, h4⟩
  | tB =>
    rcases hp : st.pcB with _ | _ | _ | _
    · exact ⟨fun _ => Or.inr (by simp [microStep, hp]), fun _ => by simp [microStep, hp],
        by simpa [microStep, hp] using h3, by simpa [microStep, hp] using h4⟩
    · refine ⟨fun _ => ?_, fun _ => ?_, ?_, ?_⟩
      · simpa [microStep, hp] using h1 (Or.inr (by simp [hp]))
      · simp [microStep, hp]
      · simpa [microStep, hp] using h3
      · simpa [microStep, hp] using h4
    · refine ⟨fun _ => ?_, fun _ => ?_, ?_, ?_⟩
      · simpa [microStep, hp] using h1 (Or.inr (by simp [hp]))
      · simp [microStep, hp]
      · simpa [microStep, hp] using h3
      · intro r hr
        simp [microStep, hp] at hr
        exact hr ▸ h1 (Or.inr (by simp [hp]))
    · simpa [microStep, hp] using ⟨h1, h2, h3, h4⟩

/-- Running any schedule preserves the race invariant. -/
lemma raceInv_run (mA mB : String) (st : RaceState) (h : RaceInv mA mB st) :
    ∀ sched : List Tid, RaceInv mA mB (raceRun mA mB st sched)
  | [] => h
  | t :: ts => raceInv_run mA mB _ (raceInv_microStep mA mB st t h) ts

/-- Counterexample to C4: the message write of the latch path (mod.rs line
49) is an unconditional overwrite with no re-check of the already-corrupted
state under the lock.  Under the schedule where writer A completes its whole
transition first (state Corrupted with retained message `"m1"`), the racing
writer B then performs a second effective transition, overwriting the
retained message with `"m2"`.  Under a second schedule A even returns an
error carrying B's message rather than its own. -/
theorem racing_writer_overwrite_counterexample :
    (raceRun "m1" "m2" raceInit [Tid.tA, Tid.tA, Tid.tA]).corrupted = true
      ∧ (raceRun "m1" "m2" raceInit [Tid.tA, Tid.tA, Tid.tA]).corrupted_error = "m1"
      ∧ (raceRun "m1" "m2" raceInit
          [Tid.tA, Tid.tA, Tid.tA, Tid.tB, Tid.tB, Tid.tB]).corrupted_error = "m2"
      ∧ (raceRun "m1" "m2" raceInit
          [Tid.tA, Tid.tA, Tid.tB, Tid.tB, Tid.tA, Tid.tB]).retA = some "m2"
      ∧ "m1" ≠ "m2" :=
  ⟨rfl, rfl, rfl, rfl, by decide⟩

/-- C4 amended: under sequentially consistent interleaving of the latch
critical sections of two racing writers (classified messages `mA`, `mB`),
each message write is a single complete assignment under the lock and
precedes that writer's flag store, so every state in which the corruption
flag is observed `true` carries one of the two complete messages — never an
empty or partial one when `mA` and `mB` are non-empty — and every error a
writer returns carries one of the two complete messages.  At-most-once does
not hold: a racing writer that passed the gate check may perform a second
effective transition, overwriting the retained message with its own (see
the counterexample). -/
theorem race_no_partial_visibility (mA mB : String) (sched : List Tid) :
    ((raceRun mA mB raceInit sched).corrupted = true →
        (raceRun mA mB raceInit sched).corrupted_error = mA
          ∨ (raceRun mA mB raceInit sched).corrupted_error = mB)
      ∧ (∀ r, (raceRun mA mB raceInit sched).retA = some r → r = mA ∨ r = mB)
      ∧ (∀ r, (raceRun mA mB raceInit sched).retB = some r → r = mA ∨ r = mB) := by
  obtain ⟨h1, h2, h3, h4⟩ := raceInv_run mA mB raceInit (raceInv_init mA mB) sched
  exact ⟨fun hc => h1 (h2 hc), h3, h4⟩

/-- Witness for C4's amended claim: after writer A's complete transition the
flag is set and the retained message is one of the two racing messages. -/
theorem race_no_partial_visibility_witness :
    (raceRun "m1" "m2" raceInit [Tid.tA, Tid.tA, Tid.tA]).corrupted = true
      ∧ ((raceRun "m1" "m2" raceInit [Tid.tA, Tid.tA, Tid.tA]).corrupted_error = "m1"
          ∨ (raceRun "m1" "m2" raceInit [Tid.tA, Tid.tA, Tid.tA]).corrupted_error = "m2") :=
  ⟨rfl, (race_no_partial_visibility "m1" "m2" [Tid.tA, Tid.tA, Tid.tA]).1 rfl⟩

end Corruptabledb
